import Mathlib

/-!
Verification of `becquerel/core/calibration.py` (the calibration-function
engine) against its specification.

Modelling conventions (shallow embedding):
* Python/NumPy floating-point values are modelled as rationals `ℚ`.
  NumPy's non-finite values (inf/nan) do not exist in `ℚ`, so the
  finiteness checks of `_validate_domain_range` are vacuously true in the
  model and only the ascending-order checks remain.
* NumPy 1-D arrays are modelled as `List ℚ`; scalars are singleton lists.
* A raised `CalibrationError` (and the `AssertionError` of
  `Calibration.inverse`) is modelled as `Except.error`.
* The `asteval` sandbox interpretation of an expression string is external
  to this module (the `asteval` library); it is modelled as an explicit
  denotation function `List ℚ → ℚ → ℚ` (parameters, independent variable ↦
  value) carried alongside the expression text.  The sandbox is total and
  real-valued in the model, so the "asteval failed" and "complex values"
  branches of `_eval_expression` do not fire.
* `scipy.optimize.least_squares` and `scipy.optimize.root_scalar` are
  external solvers; they are modelled as explicit function arguments
  (`lsq`, `roots`) supplying their results.
-/

namespace Becquerel

/-- The single exception class `CalibrationError` of `calibration.py`;
failures are distinguished by message text only. -/
inductive CalibrationError where
  | calErr (msg : String)
  deriving DecidableEq

/-- Constant `DEFAULT_DOMAIN = (0, 1e5)` from `calibration.py`. -/
def DEFAULT_DOMAIN : ℚ × ℚ := (0, 100000)

/-- Constant `DEFAULT_RANGE = (0, 1e5)` from `calibration.py`. -/
def DEFAULT_RANGE : ℚ × ℚ := (0, 100000)

/-- Model of `np.clip(v, lo, hi)`: clamp `v` into `[lo, hi]` (NumPy applies the
lower bound first, then the upper bound). -/
def np_clip (lo hi v : ℚ) : ℚ :=
  let w := if v < lo then lo else v
  if hi < w then hi else w

/-- Model of `np.isclose(a, b)` for scalars, with NumPy's default tolerances
`rtol = 1e-5`, `atol = 1e-8` (modelled exactly in `ℚ`):
`|a - b| <= atol + rtol * |b|`. -/
def rat_close (a b : ℚ) : Prop := |a - b| ≤ 1 / 100000000 + 1 / 100000 * |b|

instance (a b : ℚ) : Decidable (rat_close a b) := by
  unfold rat_close; infer_instance

/-- Model of `np.allclose(a, b)` on two equal-shape 1-D arrays: every pair of
corresponding elements is close.  (All call sites in the modelled code
compare equal-length arrays; a shape mismatch would be a NumPy broadcast
error and is guarded against by the callers.) -/
def list_allclose (a b : List ℚ) : Bool :=
  a.length == b.length && (a.zip b).all fun p => decide (rat_close p.1 p.2)

/-- Model of `_validate_domain_range(domain, rng)` from `calibration.py`.
The length-2 and finiteness checks are vacuous for `ℚ × ℚ` inputs (see
module conventions); the ascending-order checks remain. -/
def validate_domain_range (domain rng : ℚ × ℚ) : Except CalibrationError Unit :=
  if ¬ (domain.1 < domain.2) then
    .error (.calErr "Domain must contain ascending values")
  else if ¬ (rng.1 < rng.2) then
    .error (.calErr "Range must contain ascending values")
  else
    .ok ()

/-- Model of `_eval_expression(expression, params, x, ind_var, domain, rng)` from
`calibration.py`.  `f` is the external `asteval` denotation of the
expression string (see module conventions).  Checks, in source order:
domain/range validity, `np.all(x >= domain[0])`, `np.all(x <= domain[1])`,
`ind_var in ["x", "y"]`; then evaluates and clips the result element-wise
into the range. -/
def eval_expression (f : List ℚ → ℚ → ℚ) (params : List ℚ) (x : List ℚ)
    (ind_var : String) (domain rng : ℚ × ℚ) : Except CalibrationError (List ℚ) :=
  match validate_domain_range domain rng with
  | .error e => .error e
  | .ok _ =>
    if ¬ (∀ v ∈ x, domain.1 ≤ v) then
      .error (.calErr "x must be >= domain lo")
    else if ¬ (∀ v ∈ x, v ≤ domain.2) then
      .error (.calErr "x must be <= domain hi")
    else if ¬ (ind_var = "x" ∨ ind_var = "y") then
      .error (.calErr "Independent variable must be x or y")
    else
      .ok ((x.map (f params)).map (np_clip rng.1 rng.2))

/-! String machinery modelling the Python string operations used by
`_param_indices` and `_validate_expression`. -/

/-- Boolean sequence-prefix check on char lists (structural recursion). -/
def startsWithSeq : List Char → List Char → Bool
  | [], _ => true
  | _ :: _, [] => false
  | a :: as, b :: bs => a == b && startsWithSeq as bs

/-- Fuel-driven worker for `splitOnSeq` (fuel bounds the number of steps,
one step consumes at least one character). -/
def splitOnFuel (sep : List Char) : Nat → List Char → List Char → List (List Char)
  | 0, rest, acc => [acc.reverse ++ rest]
  | _ + 1, [], acc => [acc.reverse]
  | n + 1, c :: rest, acc =>
    if startsWithSeq sep (c :: rest) then
      acc.reverse :: splitOnFuel sep n (rest.drop (sep.length - 1)) []
    else
      splitOnFuel sep n rest (c :: acc)

/-- Python `s.split(sep)` for a non-empty separator: non-overlapping
left-to-right splitting, keeping empty segments. -/
def splitOnSeq (sep l : List Char) : List (List Char) :=
  splitOnFuel sep (l.length + 1) l []

/-- Decimal digit value of a char. -/
def digitVal (c : Char) : ℤ := (c.toNat : ℤ) - 48

/-- Parse a non-empty all-digit string as a natural number (as `ℤ`). -/
def parseDigits : List Char → Option ℤ
  | [] => none
  | l =>
    if l.all Char.isDigit then
      some (l.foldl (fun acc c => acc * 10 + digitVal c) 0)
    else
      none

/-- Python `int(s)` on a string: strip surrounding whitespace, optional
sign, then decimal digits; anything else raises `ValueError` (`none`).
(Python also accepts underscores between digits; no expression in this
development uses them.) -/
def pyInt (s : List Char) : Option ℤ :=
  let t := (s.dropWhile Char.isWhitespace).reverse.dropWhile Char.isWhitespace |>.reverse
  match t with
  | '-' :: ds => (parseDigits ds).map (fun n => -n)
  | '+' :: ds => parseDigits ds
  | ds => parseDigits ds

/-- Characters that may continue a Python identifier. -/
def idChar (c : Char) : Bool := c.isAlphanum || c == '_'

/-- Worker for `identifiersOf`: scans left to right; `prev` is the
previous character (a sentinel space initially) and `acc` the identifier
currently being collected (empty when not inside one).  A run starting
with a digit is a number literal, and a run starting right after `'.'` is
an attribute access — neither yields an `ast.Name` node. -/
def identsAux : List Char → Char → List Char → List (List Char)
  | [], _, acc => if acc.isEmpty then [] else [acc.reverse]
  | c :: rest, prev, acc =>
    if idChar c then
      if ¬ acc.isEmpty then identsAux rest c (c :: acc)
      else if idChar prev || prev == '.' then identsAux rest c []
      else if c.isAlpha || c == '_' then identsAux rest c [c]
      else identsAux rest c []
    else
      if acc.isEmpty then identsAux rest c [] else acc.reverse :: identsAux rest c []

/-- The identifiers occurring as free `ast.Name` nodes in an expression,
modelled by a token scan of the source text (attribute accesses such as
`np.sqrt` contribute only their base name). -/
def identifiersOf (l : List Char) : List (List Char) := identsAux l ' ' []

/-- Check that `b - a = 1` along the list: `np.allclose(np.diff(param_indices), 1)`
on integer indices (with NumPy's default tolerances, an integer difference
is close to 1 exactly when it equals 1). -/
def chainDiffOne : List ℤ → Bool
  | [] => true
  | [_] => true
  | a :: b :: t => (b - a == 1) && chainDiffOne (b :: t)

/-- Model of `_param_indices(expression)` from `calibration.py`: split the text on
`"p["`, take the part of each tail before the first `"]"`, parse it with
`int(...)` (a failure is Python's `ValueError`, modelled as `none`), and
return the sorted unique list of indices (`sorted(np.unique(...))`). -/
def param_indices (expression : String) : Option (List ℤ) := do
  let tokens := (splitOnSeq ['p', '['] expression.data).drop 1
  let idxs ← tokens.mapM fun t => pyInt ((splitOnSeq [']'] t).headD t)
  return (idxs.insertionSort (· ≤ ·)).dedup

/-- Model of `_validate_expression(expression, params, ind_var, domain, rng)` from
`calibration.py`.  The `black.format_str` reformatting step is the
external `black` formatter; on the already-canonical single-line
expressions of this development it is the identity (and `.strip()` of the
trailing newline it adds restores the input), so it is modelled as the
identity on the text.  The final smoke evaluations draw their sample
points uniformly from inside the (already validated) domain, so with the
total rational sandbox semantics of this model they always succeed and
are elided.  All other checks are modelled in source order. -/
def validate_expression (expression : String) (params : Option (List ℚ))
    (ind_var : String) (domain rng : ℚ × ℚ) : Except CalibrationError String :=
  match validate_domain_range domain rng with
  | .error e => .error e
  | .ok _ =>
    if ¬ (ind_var = "x" ∨ ind_var = "y") then
      .error (.calErr "Independent variable must be x or y")
    else if ¬ (identifiersOf expression.data).contains ind_var.data then
      .error (.calErr "Independent variable must appear in the expression")
    else
      match param_indices expression with
      | none => .error (.calErr "Unable to extract indices to parameters")
      | some idxs =>
        if idxs ≠ [] ∧ idxs.headD 0 ≠ 0 then
          .error (.calErr "Minimum parameter index in expression is not 0")
        else if idxs ≠ [] ∧ ¬ chainDiffOne idxs then
          .error (.calErr "Parameter indices in expression are not contiguous")
        else
          match params with
          | some ps =>
            if idxs.length ≠ ps.length then
              .error (.calErr "Not enough parameter indices in expression")
            else
              .ok expression
          | none => .ok expression

/-! The point store and the `Calibration` aggregate. -/

/-- Joint sort order for `(x, y)` calibration point pairs: ascending `x`
(`np.argsort(points_x)` applied to both arrays; tie order among equal `x`
is not part of the contract). -/
def pairLe (a b : ℚ × ℚ) : Prop := a.1 ≤ b.1

instance : DecidableRel pairLe := fun a b => by unfold pairLe; infer_instance

instance : IsTotal (ℚ × ℚ) pairLe := ⟨fun a b => le_total a.1 b.1⟩

instance : IsTrans (ℚ × ℚ) pairLe := ⟨fun _ _ _ h1 h2 => le_trans h1 h2⟩

/-- Model of `_check_points(points_x, points_y, domain, rng)` from `calibration.py`
(`None` inputs are passed as `[]` by the callers; the 1-D checks are
vacuous for `List ℚ`).  Checks, in source order: equal lengths, joint sort
by ascending x, all x within the domain, all y within the range. -/
def check_points (points_x points_y : List ℚ) (domain rng : ℚ × ℚ) :
    Except CalibrationError (List ℚ × List ℚ) :=
  if points_x.length ≠ points_y.length then
    .error (.calErr "Number of x and y calibration points must match")
  else
    let pairs := (points_x.zip points_y).insertionSort pairLe
    let px := pairs.map Prod.fst
    let py := pairs.map Prod.snd
    if ∃ v ∈ px, v < domain.1 ∨ domain.2 < v then
      .error (.calErr "Some x points are outside of domain")
    else if ∃ v ∈ py, v < rng.1 ∨ rng.2 < v then
      .error (.calErr "Some y points are outside of range")
    else
      .ok (px, py)

/-- A value held in an HDF5 dataset or attribute (the external key-value
store consumed by `Calibration.read`/`write`): a string or a 1-D numeric
array. -/
inductive DVal where
  | vstr (s : String)
  | vnums (l : List ℚ)
  deriving DecidableEq

/-- The `Calibration` class of `calibration.py`.  `exprFun` and `invFun`
are the external `asteval` denotations of `expression` and
`inv_expression` (see module conventions); `attrs` is the auxiliary
metadata mapping. -/
structure Calibration where
  expression : String
  exprFun : List ℚ → ℚ → ℚ
  params : List ℚ
  inv_expression : Option String
  invFun : List ℚ → ℚ → ℚ
  domain : ℚ × ℚ
  range : ℚ × ℚ
  points_x : List ℚ
  points_y : List ℚ
  attrs : List (String × DVal)

/-- Model of `Calibration.__call__(x)`: evaluate the forward expression at `x`
with the stored parameters, domain and range. -/
def Calibration.call (c : Calibration) (x : List ℚ) : Except CalibrationError (List ℚ) :=
  eval_expression c.exprFun c.params x "x" c.domain c.range

/-- The `Calibration.expression` setter: `_validate_expression(expression)`
(with default arguments), then assign.  A mutation is modelled as
`old state → (new state, optional raised error)`; an error raised before
the assignment leaves the state unchanged.  `f` is the denotation of the
new expression text. -/
def Calibration.setExpression (c : Calibration) (e : String) (f : List ℚ → ℚ → ℚ) :
    Calibration × Option CalibrationError :=
  match validate_expression e none "x" DEFAULT_DOMAIN DEFAULT_RANGE with
  | .error err => (c, some err)
  | .ok e2 => ({ c with expression := e2, exprFun := f }, none)

/-- The `Calibration.params` setter: `_validate_expression(self.expression,
params=params)`, then assign (the 1-D check is vacuous for `List ℚ`). -/
def Calibration.setParams (c : Calibration) (ps : List ℚ) :
    Calibration × Option CalibrationError :=
  match validate_expression c.expression (some ps) "x" DEFAULT_DOMAIN DEFAULT_RANGE with
  | .error err => (c, some err)
  | .ok _ => ({ c with params := ps }, none)

/-- Model of `Calibration.add_points(points_x, points_y)`: check the new points,
append them to the store (`np.append`), then re-check and re-sort the
combined set.  The combined check runs after the append, so the model
keeps the appended (unsorted) arrays if it raises. -/
def Calibration.add_points (c : Calibration) (px py : List ℚ) :
    Calibration × Option CalibrationError :=
  match check_points px py c.domain c.range with
  | .error e => (c, some e)
  | .ok (nx, ny) =>
    let ax := c.points_x ++ nx
    let ay := c.points_y ++ ny
    match check_points ax ay c.domain c.range with
    | .error e => ({ c with points_x := ax, points_y := ay }, some e)
    | .ok (sx, sy) => ({ c with points_x := sx, points_y := sy }, none)

/-- Model of `Calibration.set_points(points_x, points_y)`: empty the store, then
`add_points`. -/
def Calibration.set_points (c : Calibration) (px py : List ℚ) :
    Calibration × Option CalibrationError :=
  Calibration.add_points { c with points_x := [], points_y := [] } px py

/-- Model of `Calibration.__eq__(other)` for a `Calibration` operand: `False` when
the parameter vectors have different lengths, else textual equality of the
canonicalized expressions together with `np.allclose` of the parameter
vectors. -/
def Calibration.eq (a b : Calibration) : Bool :=
  if a.params.length ≠ b.params.length then
    false
  else
    (a.expression == b.expression) && list_allclose a.params b.params

/-- A Python value handed to `Calibration.__eq__`: a `Calibration`
instance or any other object (`None`, a number, a string, ...). -/
inductive PyObj where
  | calObj (c : Calibration)
  | noneObj
  | numObj (q : ℚ)
  | strObj (s : String)

/-- Model of `Calibration.__eq__(other)` in full: `isinstance(other, Calibration)`
is checked first and a non-`Calibration` operand raises
`CalibrationError`. -/
def Calibration.eqObj (c : Calibration) (o : PyObj) : Except CalibrationError Bool :=
  match o with
  | .calObj c2 => .ok (Calibration.eq c c2)
  | _ => .error (.calErr "Attempting to compare Calibration and a non-Calibration class")

/-- Model of `Calibration.inverse(y, x0)` from `calibration.py`.  The range check
comes first; then either the closed-form `inv_expression` is evaluated
with domain and range swapped, or `scipy.optimize.root_scalar` is called
per element with the domain as bracket — the external solver's outputs
(`result.root`) are supplied as `roots` (see module conventions).  Either
way, the final sanity check `assert np.allclose(self(x), y)` re-evaluates
the forward function and fails fatally (modelled as an error) when it is
not close to the requested `y`. -/
def Calibration.inverse (c : Calibration) (y : List ℚ) (roots : List ℚ) :
    Except CalibrationError (List ℚ) :=
  if ∃ v ∈ y, v < c.range.1 ∨ c.range.2 < v then
    .error (.calErr "Value is outside the range")
  else
    let xr : Except CalibrationError (List ℚ) :=
      match c.inv_expression with
      | none => .ok roots
      | some _ => eval_expression c.invFun c.params y "y" c.range c.domain
    match xr with
    | .error e => .error e
    | .ok x =>
      match c.call x with
      | .error e => .error e
      | .ok fx =>
        if list_allclose fx y then .ok x
        else .error (.calErr "AssertionError: np.allclose(self(x), y) failed")

/-- Model of `_fit_expression(expression, points_x, points_y, params0, domain,
rng)` from `calibration.py`.  `f` is the denotation of the expression and
`lsq` abstracts `scipy.optimize.least_squares` applied to the residuals
`points_y - f(p, points_x)` from the starting parameters (an error models
`not results.success`).  Steps in source order: validate the expression,
check the points, infer the parameter count (`_param_indices` cannot fail
here because validation has succeeded, hence the `getD`), default the
initial guess to ones, check its length, re-validate with the guess
(against the default domain, as in the source), require enough points,
short-circuit zero parameters, and otherwise run the solver. -/
def fit_expression (f : List ℚ → ℚ → ℚ) (expression : String)
    (points_x points_y : List ℚ) (params0 : Option (List ℚ)) (domain rng : ℚ × ℚ)
    (lsq : (List ℚ → List ℚ) → List ℚ → Except CalibrationError (List ℚ)) :
    Except CalibrationError (List ℚ) :=
  match validate_expression expression none "x" domain rng with
  | .error e => .error e
  | .ok expr2 =>
    match check_points points_x points_y domain rng with
    | .error e => .error e
    | .ok (px, py) =>
      let n_params := ((param_indices expr2).getD []).length
      let p0 := params0.getD (List.replicate n_params 1)
      if p0.length ≠ n_params then
        .error (.calErr "Starting parameters have the wrong length for the expression")
      else
        match validate_expression expr2 (some p0) "x" DEFAULT_DOMAIN DEFAULT_RANGE with
        | .error e => .error e
        | .ok _ =>
          if px.length < n_params then
            .error (.calErr "Expression has more free parameters than there are points to fit")
          else if n_params = 0 then
            .ok []
          else
            lsq (fun p =>
              match eval_expression f p px "x" DEFAULT_DOMAIN DEFAULT_RANGE with
              | .ok fs => (py.zip fs).map fun q => q.1 - q.2
              | .error _ => []) p0

/-- Model of `Calibration.fit()`: `_fit_expression` on the stored points with the
stored parameters as the initial guess, then the `params` setter on the
result. -/
def Calibration.fit (c : Calibration)
    (lsq : (List ℚ → List ℚ) → List ℚ → Except CalibrationError (List ℚ)) :
    Calibration × Option CalibrationError :=
  match fit_expression c.exprFun c.expression c.points_x c.points_y
      (some c.params) c.domain c.range lsq with
  | .error e => (c, some e)
  | .ok ps => Calibration.setParams c ps

/-- Model of `Calibration.__init__(expression, params, inv_expression, domain,
rng, attrs)`: runs the property setters in source order (each validating
eagerly), then `set_points()`.  A failure produces no object
(`Except.error`).  `exprFun`/`invFun` are the denotations of the
expression texts. -/
def calibration_init (expression : String) (exprFun : List ℚ → ℚ → ℚ)
    (params : List ℚ) (inv_expression : Option String) (invFun : List ℚ → ℚ → ℚ)
    (domain rng : ℚ × ℚ) (attrs : List (String × DVal)) :
    Except CalibrationError Calibration := do
  let e ← validate_expression expression none "x" DEFAULT_DOMAIN DEFAULT_RANGE
  let _ ← validate_expression e (some params) "x" DEFAULT_DOMAIN DEFAULT_RANGE
  let inv ← match inv_expression with
    | none => pure none
    | some s => do
      let s2 ← validate_expression s none "y" DEFAULT_DOMAIN DEFAULT_RANGE
      pure (some s2)
  let _ ← validate_domain_range domain (0, 1)
  let _ ← validate_domain_range (0, 1) rng
  let c : Calibration :=
    { expression := e, exprFun := exprFun, params := params, inv_expression := inv,
      invFun := invFun, domain := domain, range := rng,
      points_x := [], points_y := [], attrs := attrs }
  match Calibration.set_points c [] [] with
  | (c2, none) => pure c2
  | (_, some err) => throw err

/-- Look up a dataset/attribute key in the external store. -/
def lookupKey (l : List (String × DVal)) (k : String) : Option DVal :=
  (l.find? fun p => p.1 == k).map Prod.snd

/-- Key presence in the external store. -/
def hasKey (l : List (String × DVal)) (k : String) : Bool :=
  (lookupKey l k).isSome

/-- Model of `io.h5.ensure_string`: the dataset must hold a string. -/
def ensure_string : DVal → Except CalibrationError String
  | .vstr s => .ok s
  | .vnums _ => .error (.calErr "expected a string value")

/-- Extract a 1-D numeric dataset (the `np.array` coercion of the
`params`/`points` setters). -/
def toNums : DVal → Except CalibrationError (List ℚ)
  | .vnums l => .ok l
  | .vstr _ => .error (.calErr "expected a numeric array value")

/-- Extract a length-2 numeric dataset as a pair (the length-2 check of
`_validate_domain_range`, performed when the value reaches the
domain/range setters). -/
def toPair : DVal → Except CalibrationError (ℚ × ℚ)
  | .vnums [a, b] => .ok (a, b)
  | _ => .error (.calErr "must be length-2 iterable")

/-- The known dataset keys of the `Calibration.read` schema. -/
def KNOWN_KEYS : List String :=
  ["expression", "params", "inv_expression", "domain", "range", "points_x", "points_y"]

/-- Model of `Calibration.read(name)` from `calibration.py`, over the already
loaded store contents (`dsets`, `attrs` as returned by the external
`io.h5.read_h5`).  `denote` is the external `asteval` denotation of
expression texts.  Checks, in source order: the four required dataset
keys, no dataset keys outside `KNOWN_KEYS`, then construction.

The construction call in the source is
`cls(expr, dsets["params"], inv_expression=inv_expr, domain=dsets["domain"],
range=dsets["range"], **attrs)`.  `__init__` has no parameter named
`range` — its parameter is `rng` — so Python collects the `range=...`
keyword into `**attrs` and `rng` keeps its default `DEFAULT_RANGE`; the
model reproduces exactly that.  Points are restored when both `points_x`
and `points_y` are present. -/
def calibration_read (denote : String → List ℚ → ℚ → ℚ)
    (dsets attrs : List (String × DVal)) : Except CalibrationError Calibration := do
  if ¬ hasKey dsets "params" then
    throw (.calErr "Expected dataset params") else
  if ¬ hasKey dsets "expression" then
    throw (.calErr "Expected dataset expression") else
  if ¬ hasKey dsets "domain" then
    throw (.calErr "Expected dataset domain") else
  if ¬ hasKey dsets "range" then
    throw (.calErr "Expected dataset range") else
  let unexpected := (dsets.map Prod.fst).filter fun k => ¬ KNOWN_KEYS.contains k
  if unexpected ≠ [] then
    throw (.calErr "Unexpected dataset names in file") else
  let expr ← ensure_string ((lookupKey dsets "expression").getD (.vstr ""))
  let invExpr ← match lookupKey dsets "inv_expression" with
    | some d => do
      let s ← ensure_string d
      pure (some s)
    | none => pure none
  let ps ← toNums ((lookupKey dsets "params").getD (.vnums []))
  let dom ← toPair ((lookupKey dsets "domain").getD (.vnums []))
  let rawRange := (lookupKey dsets "range").getD (.vnums [])
  let cal ← calibration_init expr (denote expr) ps invExpr
    (match invExpr with | some s => denote s | none => fun _ _ => 0)
    dom DEFAULT_RANGE (("range", rawRange) :: attrs)
  if hasKey dsets "points_x" ∧ hasKey dsets "points_y" then
    let px ← toNums ((lookupKey dsets "points_x").getD (.vnums []))
    let py ← toNums ((lookupKey dsets "points_y").getD (.vnums []))
    match Calibration.set_points cal px py with
    | (c2, none) => pure c2
    | (_, some e) => throw e
  else
    pure cal

/-- Whether a Python object is a `Calibration` instance
(`isinstance(other, Calibration)`). -/
def PyObj.isCal : PyObj → Bool
  | .calObj _ => true
  | _ => false

/-- A concrete linear calibration `p[0] + p[1] * x` with parameters
`[1, 2]` on the default domain and range (the spec's linear-fit
scenario function), used as a sample instance. -/
def calLinear : Calibration :=
  { expression := "p[0] + p[1] * x"
    exprFun := fun p v => p.headD 0 + p.getD 1 0 * v
    params := [1, 2]
    inv_expression := none
    invFun := fun _ _ => 0
    domain := DEFAULT_DOMAIN
    range := DEFAULT_RANGE
    points_x := []
    points_y := []
    attrs := [] }

/-- A valid calibration whose forward expression `p[0] + 0 * x` is
constant in `x` (parameter `[7]`), with the closed-form inverse
expression `5 + 0 * y`.  Its inverse expression satisfies the
post-inversion sanity assert for every in-range `y` even though it does
not undo the forward map. -/
def constCal : Calibration :=
  { expression := "p[0] + 0 * x"
    exprFun := fun p _ => p.headD 0
    params := [7]
    inv_expression := some "5 + 0 * y"
    invFun := fun _ _ => 5
    domain := DEFAULT_DOMAIN
    range := DEFAULT_RANGE
    points_x := []
    points_y := []
    attrs := [] }

/-- A sample external `asteval` denotation assigning every expression
text the linear semantics `p[0] + p[1] * x`. -/
def den_linear : String → List ℚ → ℚ → ℚ := fun _ p v => p.headD 0 + p.getD 1 0 * v

/-- A well-formed persisted calibration store: linear expression,
parameters `[1, 2]`, domain `(0, 1e5)` and a non-default range
`(0, 50)`. -/
def goodDsets : List (String × DVal) :=
  [("expression", .vstr "p[0] + p[1] * x"), ("params", .vnums [1, 2]),
   ("domain", .vnums [0, 100000]), ("range", .vnums [0, 50])]

/-- C2: evaluation enforces the domain as a hard input contract: with a
valid domain and range, evaluating at any `x` having an element strictly
below `domain.lo` or strictly above `domain.hi` raises `CalibrationError`,
while evaluating exactly at the boundary values succeeds. -/
theorem c2_domain_enforcement (f : List ℚ → ℚ → ℚ) (ps xs : List ℚ) (d r : ℚ × ℚ)
    (hd : d.1 < d.2) (hr : r.1 < r.2) :
    ((∃ v ∈ xs, v < d.1 ∨ d.2 < v) →
      ∃ e, eval_expression f ps xs "x" d r = .error e)
    ∧ (∃ ys, eval_expression f ps [d.1, d.2] "x" d r = .ok ys) := by
  have hv : validate_domain_range d r = .ok () := by
    simp [validate_domain_range, hd, hr, not_lt]
  constructor
  · rintro ⟨v, hvmem, hout⟩
    simp only [eval_expression, hv]
    by_cases hall : ∀ w ∈ xs, d.1 ≤ w
    · have hgt : ¬ ∀ w ∈ xs, w ≤ d.2 := by
        intro hle
        rcases hout with h1 | h2
        · exact absurd (hall v hvmem) (not_le.mpr h1)
        · exact absurd (hle v hvmem) (not_le.mpr h2)
      simp only [hall, hgt]
      split
      · exact ⟨_, rfl⟩
      · simp
    · simp [hall]
  · have h1 : ∀ w ∈ [d.1, d.2], d.1 ≤ w := by
      intro w hw
      rcases List.mem_pair.mp hw with rfl | rfl
      · exact le_refl _
      · exact le_of_lt hd
    have h2 : ∀ w ∈ [d.1, d.2], w ≤ d.2 := by
      intro w hw
      rcases List.mem_pair.mp hw with rfl | rfl
      · exact le_of_lt hd
      · exact le_refl _
    refine ⟨[np_clip r.1 r.2 (f ps d.1), np_clip r.1 r.2 (f ps d.2)], ?_⟩
    simp [eval_expression, hv, h1, h2]

/-- C2 witness: a concrete out-of-domain input fails and the concrete
boundary input succeeds, for the identity expression on domain `(0, 10)`. -/
theorem c2_domain_enforcement_witness :
    ((∃ v ∈ [(-1 : ℚ)], v < ((0 : ℚ), (10 : ℚ)).1 ∨ ((0 : ℚ), (10 : ℚ)).2 < v) →
      ∃ e, eval_expression (fun _ v => v) [] [(-1 : ℚ)] "x" (0, 10) (0, 10) = .error e)
    ∧ (∃ ys, eval_expression (fun _ v => v) []
        [((0 : ℚ), (10 : ℚ)).1, ((0 : ℚ), (10 : ℚ)).2] "x" (0, 10) (0, 10) = .ok ys) :=
  c2_domain_enforcement (fun _ v => v) [] [(-1 : ℚ)] (0, 10) (0, 10)
    (by norm_num) (by norm_num)

/-- C3: a successful evaluation returns the raw expression results
clipped element-wise into the range, silently: values above `range.hi`
come back exactly as `range.hi` and values below `range.lo` exactly as
`range.lo`, with no error raised. -/
theorem c3_range_clipping (f : List ℚ → ℚ → ℚ) (ps xs : List ℚ) (d r : ℚ × ℚ)
    (hd : d.1 < d.2) (hr : r.1 < r.2) (hin : ∀ v ∈ xs, d.1 ≤ v ∧ v ≤ d.2) :
    eval_expression f ps xs "x" d r = .ok ((xs.map (f ps)).map (np_clip r.1 r.2))
    ∧ (∀ v, r.2 < v → np_clip r.1 r.2 v = r.2)
    ∧ (∀ v, v < r.1 → np_clip r.1 r.2 v = r.1) := by
  have hv : validate_domain_range d r = .ok () := by
    simp [validate_domain_range, hd, hr, not_lt]
  refine ⟨?_, ?_, ?_⟩
  · have h1 : ¬ ∃ w ∈ xs, w < d.1 := by
      rintro ⟨w, hw, hlt⟩
      exact absurd (hin w hw).1 (not_le.mpr hlt)
    have h2 : ¬ ∃ w ∈ xs, d.2 < w := by
      rintro ⟨w, hw, hlt⟩
      exact absurd (hin w hw).2 (not_le.mpr hlt)
    simp [eval_expression, hv, h1, h2, fun w hw => (hin w hw).1, fun w hw => (hin w hw).2]
  · intro v h
    simp only [np_clip]
    split_ifs with h1 h2 <;> first | rfl | linarith
  · intro v h
    simp only [np_clip]
    split_ifs with h1 h2 <;> first | rfl | linarith

/-- C3 witness: the expression `100 * x` on range `(0, 10)` evaluated at
`x = 5` exceeds the range and returns exactly `range.hi = 10`. -/
theorem c3_range_clipping_witness :
    eval_expression (fun (_ : List ℚ) (v : ℚ) => 100 * v) [] [(5 : ℚ)] "x" (0, 10) (0, 10)
      = .ok (([(5 : ℚ)].map ((fun (_ : List ℚ) (v : ℚ) => 100 * v) [])).map (np_clip 0 10))
    ∧ (∀ v, (10 : ℚ) < v → np_clip 0 10 v = 10)
    ∧ (∀ v, v < (0 : ℚ) → np_clip 0 10 v = 0) :=
  c3_range_clipping (fun (_ : List ℚ) (v : ℚ) => 100 * v) [] [(5 : ℚ)] (0, 10) (0, 10)
    (by norm_num) (by norm_num) (by norm_num)

/-- Lemma that `_validate_domain_range` accepts the default domain and range. -/
theorem validate_domain_range_default :
    validate_domain_range DEFAULT_DOMAIN DEFAULT_RANGE = .ok () := by
  norm_num [validate_domain_range, DEFAULT_DOMAIN, DEFAULT_RANGE]

/-- C4: validation collects the sorted unique parameter indices `p[j]`
and fails unless the non-empty set starts at 0 and is contiguous:
`p[0]`/`p[2]` fails, `p[0]`/`p[1]` passes, and a supplied parameter
vector must have exactly as many entries as there are distinct indices. -/
theorem c4_param_index_contiguity :
    (validate_expression "p[0] + p[2] * x" none "x" DEFAULT_DOMAIN DEFAULT_RANGE).isOk = false
    ∧ (validate_expression "p[0] + p[1] * x" (some [1, 2]) "x" DEFAULT_DOMAIN DEFAULT_RANGE).isOk = true
    ∧ (∀ expr idxs, param_indices expr = some idxs →
        idxs.Sorted (· ≤ ·) ∧ idxs.Nodup)
    ∧ (∀ expr idxs (ps : List ℚ), param_indices expr = some idxs → idxs ≠ [] →
        (idxs.headD 0 ≠ 0 ∨ chainDiffOne idxs = false) →
        (validate_expression expr (some ps) "x" DEFAULT_DOMAIN DEFAULT_RANGE).isOk = false)
    ∧ (∀ expr idxs (ps : List ℚ), param_indices expr = some idxs →
        idxs.length ≠ ps.length →
        (validate_expression expr (some ps) "x" DEFAULT_DOMAIN DEFAULT_RANGE).isOk = false) := by
  refine ⟨?_, ?_, ?_, ?_, ?_⟩
  · norm_num [validate_expression, validate_domain_range, DEFAULT_DOMAIN, DEFAULT_RANGE]
    decide
  · norm_num [validate_expression, validate_domain_range, DEFAULT_DOMAIN, DEFAULT_RANGE]
    decide
  · intro expr idxs hpi
    simp only [param_indices, Option.bind_eq_bind, bind, Option.bind_eq_some] at hpi
    obtain ⟨l, _, hl⟩ := hpi
    have hidxs : idxs = (l.insertionSort (· ≤ ·)).dedup := by
      simpa using hl.symm
    subst hidxs
    constructor
    · exact (List.sorted_insertionSort (· ≤ ·) l).sublist (List.dedup_sublist _)
    · exact List.nodup_dedup _
  · rintro expr idxs ps hpi hne hbad
    simp only [validate_expression, validate_domain_range_default]
    rw [if_neg (by simp)]
    by_cases happ : (identifiersOf expr.data).contains "x".data = true
    · rw [if_neg (by simpa using happ)]
      simp only [hpi]
      rcases hbad with hhead | hchain
      · rw [if_pos ⟨hne, hhead⟩]
        rfl
      · by_cases hhead0 : idxs.headD 0 ≠ 0
        · rw [if_pos ⟨hne, hhead0⟩]
          rfl
        · rw [if_neg (fun h => hhead0 h.2)]
          rw [if_pos ⟨hne, by simp [hchain]⟩]
          rfl
    · rw [if_pos (by simpa using happ)]
      rfl
  · rintro expr idxs ps hpi hlen
    simp only [validate_expression, validate_domain_range_default]
    rw [if_neg (by simp)]
    by_cases happ : (identifiersOf expr.data).contains "x".data = true
    · rw [if_neg (by simpa using happ)]
      simp only [hpi]
      split_ifs with h1 h2 h3 <;> first | rfl | exact absurd hlen h3
    · rw [if_pos (by simpa using happ)]
      rfl

/-- C4 witness: the general parts applied at `p[0] + p[2] * x` (indices
`[0, 2]`, non-contiguous) and at `p[0]` with an empty parameter vector
(length mismatch). -/
theorem c4_param_index_contiguity_witness :
    ([(0 : ℤ), 2].Sorted (· ≤ ·) ∧ [(0 : ℤ), 2].Nodup)
    ∧ (validate_expression "p[0] + p[2] * x" (some [1, 2]) "x" DEFAULT_DOMAIN DEFAULT_RANGE).isOk = false
    ∧ (validate_expression "p[0]" (some []) "x" DEFAULT_DOMAIN DEFAULT_RANGE).isOk = false :=
  ⟨c4_param_index_contiguity.2.2.1 "p[0] + p[2] * x" [0, 2] (by decide),
   c4_param_index_contiguity.2.2.2.1 "p[0] + p[2] * x" [0, 2] [1, 2] (by decide)
     (by decide) (by decide),
   c4_param_index_contiguity.2.2.2.2 "p[0]" [0] [] (by decide) (by decide)⟩

/-- C10: comparing a `Calibration` for equality with any non-`Calibration`
object raises `CalibrationError` instead of returning a Boolean. -/
theorem c10_eq_non_calibration_raises (c : Calibration) (o : PyObj)
    (h : o.isCal = false) :
    ∃ m, Calibration.eqObj c o = .error (.calErr m) := by
  cases o with
  | calObj c2 => simp [PyObj.isCal] at h
  | noneObj => exact ⟨_, rfl⟩
  | numObj q => exact ⟨_, rfl⟩
  | strObj s => exact ⟨_, rfl⟩

/-- C10 witness: comparing the sample linear calibration with `None`
raises. -/
theorem c10_eq_non_calibration_raises_witness :
    ∃ m, Calibration.eqObj calLinear PyObj.noneObj = .error (.calErr m) :=
  c10_eq_non_calibration_raises calLinear PyObj.noneObj rfl

/-- C6: `a == b` holds iff the canonicalized expressions are textually
equal and the parameter vectors are `np.allclose`, independently of
domain, range, points, attrs (and of the inverse expression); calibrations
with different parameter-vector lengths compare unequal without raising. -/
theorem c6_equality :
    (∀ a b : Calibration, Calibration.eq a b = true ↔
      (a.expression = b.expression ∧ list_allclose a.params b.params = true))
    ∧ (∀ a b : Calibration, a.params.length ≠ b.params.length →
        Calibration.eqObj a (.calObj b) = .ok false)
    ∧ (∀ a b : Calibration, ∀ (d d2 r r2 : ℚ × ℚ) (px px2 py py2 : List ℚ)
        (at1 at2 : List (String × DVal)) (inv1 inv2 : Option String)
        (f1 f2 g1 g2 : List ℚ → ℚ → ℚ),
        Calibration.eq
          { a with domain := d, range := r, points_x := px, points_y := py,
                   attrs := at1, inv_expression := inv1, exprFun := f1, invFun := g1 }
          { b with domain := d2, range := r2, points_x := px2, points_y := py2,
                   attrs := at2, inv_expression := inv2, exprFun := f2, invFun := g2 }
          = Calibration.eq a b) := by
  refine ⟨?_, ?_, ?_⟩
  · intro a b
    unfold Calibration.eq
    split_ifs with hlen
    · constructor
      · intro h
        cases h
      · rintro ⟨hexpr, hclose⟩
        apply hlen
        have hl := hclose
        unfold list_allclose at hl
        simp only [Bool.and_eq_true, beq_iff_eq] at hl
        exact hl.1
    · simp [Bool.and_eq_true, beq_iff_eq]
  · intro a b hlen
    simp only [Calibration.eqObj, Calibration.eq]
    rw [if_pos hlen]
  · intro a b d d2 r r2 px px2 py py2 at1 at2 inv1 inv2 f1 f2 g1 g2
    rfl

/-- C6 witness: the equality characterization at the sample linear
calibration, and a length-mismatch comparison that returns `False`
without raising. -/
theorem c6_equality_witness :
    (Calibration.eq calLinear calLinear = true ↔
      (calLinear.expression = calLinear.expression
        ∧ list_allclose calLinear.params calLinear.params = true))
    ∧ Calibration.eqObj calLinear (.calObj { calLinear with params := [1] }) = .ok false :=
  ⟨c6_equality.1 calLinear calLinear,
   c6_equality.2.1 calLinear { calLinear with params := [1] } (by decide)⟩

/-- Characterization of a successful `_check_points` call: the returned
arrays are the jointly sorted input pairs, the input lengths agree, and
every returned x/y value is within the domain/range. -/
theorem check_points_ok_spec (px py sx sy : List ℚ) (d r : ℚ × ℚ)
    (h : check_points px py d r = .ok (sx, sy)) :
    sx = ((px.zip py).insertionSort pairLe).map Prod.fst
    ∧ sy = ((px.zip py).insertionSort pairLe).map Prod.snd
    ∧ px.length = py.length
    ∧ sx.Sorted (· ≤ ·)
    ∧ (∀ v ∈ sx, d.1 ≤ v ∧ v ≤ d.2)
    ∧ (∀ v ∈ sy, r.1 ≤ v ∧ v ≤ r.2) := by
  unfold check_points at h
  dsimp only at h
  split_ifs at h with h1 hx hy
  simp only [Except.ok.injEq, Prod.mk.injEq] at h
  obtain ⟨hsx, hsy⟩ := h
  subst hsx
  subst hsy
  push_neg at hx hy
  refine ⟨rfl, rfl, not_ne_iff.mp h1, ?_, hx, hy⟩
  exact (List.sorted_insertionSort pairLe (px.zip py)).map _ (fun a b hab => hab)

/-- C5: the point store keeps `points_x` sorted ascending with `points_y`
jointly permuted, globally, re-sorting the combined set on `add_points`;
stored values are within domain × range, and violating inputs raise and
are not stored. -/
theorem c5_point_store_invariant :
    ((calLinear.add_points [3, 1] [30, 10]).2 = none
      ∧ (calLinear.add_points [3, 1] [30, 10]).1.points_x = [1, 3]
      ∧ (calLinear.add_points [3, 1] [30, 10]).1.points_y = [10, 30]
      ∧ ((calLinear.add_points [3, 1] [30, 10]).1.add_points [2] [20]).2 = none
      ∧ ((calLinear.add_points [3, 1] [30, 10]).1.add_points [2] [20]).1.points_x = [1, 2, 3]
      ∧ ((calLinear.add_points [3, 1] [30, 10]).1.add_points [2] [20]).1.points_y = [10, 20, 30])
    ∧ (∀ (c : Calibration) (px py : List ℚ) (c' : Calibration),
        c.add_points px py = (c', none) →
        c'.points_x.Sorted (· ≤ ·)
        ∧ (∀ v ∈ c'.points_x, c.domain.1 ≤ v ∧ v ≤ c.domain.2)
        ∧ (∀ v ∈ c'.points_y, c.range.1 ≤ v ∧ v ≤ c.range.2))
    ∧ (∀ (c : Calibration) (px py : List ℚ) (c' : Calibration),
        c.points_x.length = c.points_y.length →
        c.add_points px py = (c', none) →
        (c'.points_x.zip c'.points_y).Perm ((c.points_x.zip c.points_y) ++ px.zip py))
    ∧ (∀ (c : Calibration) (px py : List ℚ),
        px.length = py.length →
        (∃ v ∈ px, v < c.domain.1 ∨ c.domain.2 < v) →
        c.add_points px py = (c, some (.calErr "Some x points are outside of domain"))) := by
  refine ⟨?_, ?_, ?_, ?_⟩
  · norm_num [Calibration.add_points, check_points, calLinear, DEFAULT_DOMAIN,
      DEFAULT_RANGE, pairLe, List.insertionSort, List.orderedInsert]
  · intro c px py c' h
    unfold Calibration.add_points at h
    rcases hc1 : check_points px py c.domain c.range with e | ⟨nx, ny⟩
    · rw [hc1] at h
      simp at h
    · rw [hc1] at h
      dsimp only at h
      rcases hc2 : check_points (c.points_x ++ nx) (c.points_y ++ ny) c.domain c.range
        with e2 | ⟨sx, sy⟩
      · rw [hc2] at h
        simp at h
      · rw [hc2] at h
        dsimp only at h
        simp only [Prod.mk.injEq] at h
        obtain ⟨hc', -⟩ := h
        subst hc'
        obtain ⟨-, -, -, hsort, hbx, hby⟩ := check_points_ok_spec _ _ _ _ _ _ hc2
        exact ⟨hsort, hbx, hby⟩
  · intro c px py c' hlen h
    unfold Calibration.add_points at h
    rcases hc1 : check_points px py c.domain c.range with e | ⟨nx, ny⟩
    · rw [hc1] at h
      simp at h
    · rw [hc1] at h
      dsimp only at h
      rcases hc2 : check_points (c.points_x ++ nx) (c.points_y ++ ny) c.domain c.range
        with e2 | ⟨sx, sy⟩
      · rw [hc2] at h
        simp at h
      · rw [hc2] at h
        dsimp only at h
        simp only [Prod.mk.injEq] at h
        obtain ⟨hc', -⟩ := h
        subst hc'
        obtain ⟨hnx, hny, hlen1, -, -, -⟩ := check_points_ok_spec _ _ _ _ _ _ hc1
        obtain ⟨hsx, hsy, -, -, -, -⟩ := check_points_ok_spec _ _ _ _ _ _ hc2
        have hzip1 : nx.zip ny = (px.zip py).insertionSort pairLe := by
          rw [hnx, hny, List.zip_map' Prod.fst Prod.snd]
          simp
        have hzip2 : sx.zip sy
            = ((c.points_x ++ nx).zip (c.points_y ++ ny)).insertionSort pairLe := by
          rw [hsx, hsy, List.zip_map' Prod.fst Prod.snd]
          simp
        show (sx.zip sy).Perm _
        rw [hzip2, List.zip_append hlen]
        refine List.Perm.trans (List.perm_insertionSort _ _) ?_
        apply List.Perm.append_left
        rw [hzip1]
        exact List.perm_insertionSort _ _
  · rintro c px py hlen ⟨v, hv, hout⟩
    unfold Calibration.add_points
    have hcp : check_points px py c.domain c.range
        = .error (.calErr "Some x points are outside of domain") := by
      unfold check_points
      dsimp only
      rw [if_neg (not_ne_iff.mpr hlen)]
      have hvmem : v ∈ ((px.zip py).insertionSort pairLe).map Prod.fst := by
        have h1 : v ∈ (px.zip py).map Prod.fst := by
          rw [List.map_fst_zip px py (le_of_eq hlen)]
          exact hv
        rcases List.mem_map.mp h1 with ⟨pr, hpr, hpr2⟩
        exact List.mem_map.mpr ⟨pr, by simpa using hpr, hpr2⟩
      rw [if_pos ⟨v, hvmem, hout⟩]
    rw [hcp]

/-- C5 witness: the invariant parts applied to the sample calibration at
concrete points, and a concrete out-of-domain `add_points` call that
raises and leaves the store unchanged. -/
theorem c5_point_store_invariant_witness :
    (({ calLinear with points_x := [1, 3], points_y := [10, 30] } : Calibration).points_x.Sorted (· ≤ ·)
      ∧ (∀ v ∈ ({ calLinear with points_x := [1, 3], points_y := [10, 30] } : Calibration).points_x,
          calLinear.domain.1 ≤ v ∧ v ≤ calLinear.domain.2)
      ∧ (∀ v ∈ ({ calLinear with points_x := [1, 3], points_y := [10, 30] } : Calibration).points_y,
          calLinear.range.1 ≤ v ∧ v ≤ calLinear.range.2))
    ∧ calLinear.add_points [-5] [1]
        = (calLinear, some (.calErr "Some x points are outside of domain")) :=
  ⟨c5_point_store_invariant.2.1 calLinear [3, 1] [30, 10] _
      (by norm_num [Calibration.add_points, check_points, calLinear, DEFAULT_DOMAIN,
        DEFAULT_RANGE, pairLe, List.insertionSort, List.orderedInsert]),
   c5_point_store_invariant.2.2.2 calLinear [-5] [1] rfl
      ⟨-5, by simp, Or.inl (by norm_num [calLinear, DEFAULT_DOMAIN])⟩⟩

/-- A failing `params` setter leaves the calibration unchanged (the
validation precedes the assignment). -/
theorem setParams_error_state (c : Calibration) (ps : List ℚ)
    (h : (c.setParams ps).2.isSome = true) : (c.setParams ps).1 = c := by
  unfold Calibration.setParams at *
  rcases hv : validate_expression c.expression (some ps) "x" DEFAULT_DOMAIN DEFAULT_RANGE
    with err | e2
  · rfl
  · rw [hv] at h
    simp at h

/-- C8: every failing mutation of a live `Calibration` leaves the prior
state observable: failing `expression`/`params` setters and a failing
`fit` leave the stored state unchanged, and a failed construction
produces no object (only an error). -/
theorem c8_failed_mutation_preserves_state :
    (∀ (c : Calibration) (e : String) (f : List ℚ → ℚ → ℚ),
        (c.setExpression e f).2.isSome → (c.setExpression e f).1 = c)
    ∧ (∀ (c : Calibration) (ps : List ℚ),
        (c.setParams ps).2.isSome → (c.setParams ps).1 = c)
    ∧ (∀ (c : Calibration)
        (lsq : (List ℚ → List ℚ) → List ℚ → Except CalibrationError (List ℚ)),
        (c.fit lsq).2.isSome → (c.fit lsq).1 = c)
    ∧ (∃ e, calibration_init "p[0] + p[2] * x" (fun p v => p.headD 0 + p.getD 1 0 * v)
          [1, 2] none (fun _ _ => 0) DEFAULT_DOMAIN DEFAULT_RANGE [] = .error e) := by
  have hval : validate_expression "p[0] + p[2] * x" none "x" DEFAULT_DOMAIN DEFAULT_RANGE
      = .error (.calErr "Parameter indices in expression are not contiguous") := by
    norm_num [validate_expression, validate_domain_range, DEFAULT_DOMAIN, DEFAULT_RANGE]
    rfl
  refine ⟨?_, setParams_error_state, ?_, ?_⟩
  · intro c e f h
    unfold Calibration.setExpression at *
    rcases hv : validate_expression e none "x" DEFAULT_DOMAIN DEFAULT_RANGE with err | e2
    · rfl
    · rw [hv] at h
      simp at h
  · intro c lsq h
    unfold Calibration.fit at *
    rcases hf : fit_expression c.exprFun c.expression c.points_x c.points_y
        (some c.params) c.domain c.range lsq with err | ps
    · rfl
    · rw [hf] at h
      dsimp only at h ⊢
      exact setParams_error_state c ps h
  · refine ⟨.calErr "Parameter indices in expression are not contiguous", ?_⟩
    simp [calibration_init, hval, Bind.bind, Except.bind]

/-- C8 witness: a non-contiguous expression assignment and a wrong-length
parameter assignment both fail and leave the sample calibration
unchanged. -/
theorem c8_failed_mutation_preserves_state_witness :
    (calLinear.setExpression "p[0] + p[2] * x" (fun _ _ => 0)).1 = calLinear
    ∧ (calLinear.setParams [1]).1 = calLinear :=
  ⟨c8_failed_mutation_preserves_state.1 calLinear "p[0] + p[2] * x" (fun _ _ => 0)
      (by
        have h : validate_expression "p[0] + p[2] * x" none "x" DEFAULT_DOMAIN DEFAULT_RANGE
            = .error (.calErr "Parameter indices in expression are not contiguous") := by
          norm_num [validate_expression, validate_domain_range, DEFAULT_DOMAIN, DEFAULT_RANGE]
          rfl
        simp [Calibration.setExpression, h]),
   c8_failed_mutation_preserves_state.2.1 calLinear [1]
      (by
        have h : validate_expression calLinear.expression (some [1]) "x" DEFAULT_DOMAIN DEFAULT_RANGE
            = .error (.calErr "Not enough parameter indices in expression") := by
          norm_num [calLinear, validate_expression, validate_domain_range,
            DEFAULT_DOMAIN, DEFAULT_RANGE]
          rfl
        simp [Calibration.setParams, h])⟩

/-- C7: fitting an expression with `n` free parameters to fewer than `n`
points fails with the "not enough points" error before the solver is ever
consulted (the result does not depend on `lsq`); a zero-parameter
expression short-circuits to an empty parameter vector with no
optimization performed. -/
theorem c7_underdetermined_fit :
    (∀ (f : List ℚ → ℚ → ℚ)
        (lsq : (List ℚ → List ℚ) → List ℚ → Except CalibrationError (List ℚ))
        (d r : ℚ × ℚ) (expr e2 e3 : String) (px py sx sy : List ℚ) (idxs : List ℤ),
        validate_expression expr none "x" d r = .ok e2 →
        check_points px py d r = .ok (sx, sy) →
        param_indices e2 = some idxs →
        validate_expression e2 (some (List.replicate idxs.length 1)) "x"
          DEFAULT_DOMAIN DEFAULT_RANGE = .ok e3 →
        sx.length < idxs.length →
        fit_expression f expr px py none d r lsq
          = .error (.calErr "Expression has more free parameters than there are points to fit"))
    ∧ (∀ (f : List ℚ → ℚ → ℚ)
        (lsq : (List ℚ → List ℚ) → List ℚ → Except CalibrationError (List ℚ)),
        fit_expression f "p[0] + p[1] * x + p[2] * x ** 2" [0, 1] [0, 1] none
          DEFAULT_DOMAIN DEFAULT_RANGE lsq
          = .error (.calErr "Expression has more free parameters than there are points to fit"))
    ∧ (∀ (f : List ℚ → ℚ → ℚ)
        (lsq : (List ℚ → List ℚ) → List ℚ → Except CalibrationError (List ℚ)),
        fit_expression f "x + 0 * x" [1, 2] [3, 4] none DEFAULT_DOMAIN DEFAULT_RANGE lsq
          = .ok []) := by
  have hgen : ∀ (f : List ℚ → ℚ → ℚ)
      (lsq : (List ℚ → List ℚ) → List ℚ → Except CalibrationError (List ℚ))
      (d r : ℚ × ℚ) (expr e2 e3 : String) (px py sx sy : List ℚ) (idxs : List ℤ),
      validate_expression expr none "x" d r = .ok e2 →
      check_points px py d r = .ok (sx, sy) →
      param_indices e2 = some idxs →
      validate_expression e2 (some (List.replicate idxs.length 1)) "x"
        DEFAULT_DOMAIN DEFAULT_RANGE = .ok e3 →
      sx.length < idxs.length →
      fit_expression f expr px py none d r lsq
        = .error (.calErr "Expression has more free parameters than there are points to fit") := by
    intro f lsq d r expr e2 e3 px py sx sy idxs h1 h2 h3 h4 h5
    unfold fit_expression
    rw [h1, h2]
    dsimp only
    rw [h3]
    dsimp only [Option.getD]
    rw [if_neg (by simp)]
    rw [h4]
    dsimp only
    rw [if_pos h5]
  refine ⟨hgen, ?_, ?_⟩
  · intro f lsq
    have h1 : validate_expression "p[0] + p[1] * x + p[2] * x ** 2" none "x"
        DEFAULT_DOMAIN DEFAULT_RANGE = .ok "p[0] + p[1] * x + p[2] * x ** 2" := by
      norm_num [validate_expression, validate_domain_range, DEFAULT_DOMAIN, DEFAULT_RANGE]
      rfl
    have h2 : check_points [0, 1] [0, 1] DEFAULT_DOMAIN DEFAULT_RANGE = .ok ([0, 1], [0, 1]) := by
      norm_num [check_points, DEFAULT_DOMAIN, DEFAULT_RANGE, pairLe,
        List.insertionSort, List.orderedInsert]
    have h3 : param_indices "p[0] + p[1] * x + p[2] * x ** 2" = some [0, 1, 2] := by
      rfl
    have h4 : validate_expression "p[0] + p[1] * x + p[2] * x ** 2"
        (some (List.replicate ([(0 : ℤ), 1, 2]).length 1)) "x" DEFAULT_DOMAIN DEFAULT_RANGE
        = .ok "p[0] + p[1] * x + p[2] * x ** 2" := by
      norm_num [validate_expression, validate_domain_range, DEFAULT_DOMAIN, DEFAULT_RANGE]
      rfl
    exact hgen f lsq DEFAULT_DOMAIN DEFAULT_RANGE
      "p[0] + p[1] * x + p[2] * x ** 2" "p[0] + p[1] * x + p[2] * x ** 2"
      "p[0] + p[1] * x + p[2] * x ** 2" [0, 1] [0, 1] [0, 1] [0, 1] [0, 1, 2]
      h1 h2 h3 h4 (by norm_num)
  · intro f lsq
    have h1 : validate_expression "x + 0 * x" none "x" DEFAULT_DOMAIN DEFAULT_RANGE
        = .ok "x + 0 * x" := by
      norm_num [validate_expression, validate_domain_range, DEFAULT_DOMAIN, DEFAULT_RANGE]
      rfl
    have h2 : check_points [1, 2] [3, 4] DEFAULT_DOMAIN DEFAULT_RANGE = .ok ([1, 2], [3, 4]) := by
      norm_num [check_points, DEFAULT_DOMAIN, DEFAULT_RANGE, pairLe,
        List.insertionSort, List.orderedInsert]
    have h3 : param_indices "x + 0 * x" = some [] := by
      rfl
    have h4 : validate_expression "x + 0 * x" (some []) "x" DEFAULT_DOMAIN DEFAULT_RANGE
        = .ok "x + 0 * x" := by
      norm_num [validate_expression, validate_domain_range, DEFAULT_DOMAIN, DEFAULT_RANGE]
      rfl
    unfold fit_expression
    rw [h1, h2]
    dsimp only
    rw [h3]
    dsimp only [Option.getD, List.replicate]
    rw [if_neg (by simp)]
    rw [h4]
    dsimp only
    rw [if_neg (by norm_num)]
    simp

/-- C7 witness: the general under-determined part applied at the concrete
3-parameter expression with 2 points and a trivial solver. -/
theorem c7_underdetermined_fit_witness :
    fit_expression (fun _ _ => 0) "p[0] + p[1] * x + p[2] * x ** 2" [0, 1] [0, 1] none
      DEFAULT_DOMAIN DEFAULT_RANGE (fun _ p0 => .ok p0)
      = .error (.calErr "Expression has more free parameters than there are points to fit") :=
  c7_underdetermined_fit.1 (fun _ _ => 0) (fun _ p0 => .ok p0) DEFAULT_DOMAIN DEFAULT_RANGE
    "p[0] + p[1] * x + p[2] * x ** 2" "p[0] + p[1] * x + p[2] * x ** 2"
    "p[0] + p[1] * x + p[2] * x ** 2" [0, 1] [0, 1] [0, 1] [0, 1] [0, 1, 2]
    (by norm_num [validate_expression, validate_domain_range, DEFAULT_DOMAIN, DEFAULT_RANGE]
        rfl)
    (by norm_num [check_points, DEFAULT_DOMAIN, DEFAULT_RANGE, pairLe,
        List.insertionSort, List.orderedInsert])
    (by rfl)
    (by norm_num [validate_expression, validate_domain_range, DEFAULT_DOMAIN, DEFAULT_RANGE]
        rfl)
    (by norm_num)

/-- C9 (code bug): `Calibration.read` enforces the required keys and the
strict schema as claimed, but does not restore the persisted `range`:
because `read` passes `range=...` while the `__init__` parameter is named
`rng`, Python collects the keyword into `**attrs`, so the returned
calibration keeps `DEFAULT_RANGE` and the persisted range value surfaces
in `attrs` instead. -/
theorem c9_read_schema_and_range_bug :
    ((calibration_read den_linear
        [("expression", .vstr "p[0] + p[1] * x"), ("params", .vnums [1, 2]),
         ("domain", .vnums [0, 100000])] []).isOk = false)
    ∧ ((calibration_read den_linear (goodDsets ++ [("extra", .vnums [1])]) []).isOk = false)
    ∧ ((calibration_read den_linear goodDsets []).toOption.map
        (fun c => (c.expression, c.params, c.domain, c.range, c.attrs,
                   c.inv_expression, c.points_x, c.points_y))
      = some ("p[0] + p[1] * x", [1, 2], ((0 : ℚ), (100000 : ℚ)), DEFAULT_RANGE,
              [("range", DVal.vnums [0, 50])], none, [], []))
    ∧ DEFAULT_RANGE ≠ (((0 : ℚ)), ((50 : ℚ))) := by
  refine ⟨by rfl, by rfl, by rfl, ?_⟩
  simp only [DEFAULT_RANGE, ne_eq, Prod.mk.injEq, not_and]
  intro
  norm_num

/-- The closed-form inverse of `constCal` at `y = 7` returns `5`: the
inverse expression evaluates to `5`, and the sanity assert passes because
`f(5) = 7 ≈ 7`. -/
theorem constCal_inverse_seven : constCal.inverse [7] [] = .ok [5] := by
  have hclose : list_allclose [7] [7] = true := by
    norm_num [list_allclose, rat_close]
  have hinv : eval_expression constCal.invFun constCal.params [7] "y"
      constCal.range constCal.domain = .ok [5] := by rfl
  have hcall : constCal.call [5] = .ok [7] := by rfl
  unfold Calibration.inverse
  rw [if_neg (by decide)]
  rw [show constCal.inv_expression = some "5 + 0 * y" from rfl]
  dsimp only
  rw [hinv]
  dsimp only
  rw [hcall]
  dsimp only
  simp [hclose]

/-- C1 counterexample: `constCal` is a valid calibration (it is produced
by `__init__`), yet `inverse(call([3])) = [5]`, which is not numerically
close to `[3]`: the round-trip `c.inverse(c(x)) ≈ x` fails as a universal
property, because the post-inversion assert checks only that `f(x)` is
close to the requested `y`, which a non-injective expression satisfies at
a different preimage. -/
theorem c1_roundtrip_counterexample :
    calibration_init "p[0] + 0 * x" constCal.exprFun [7] (some "5 + 0 * y") constCal.invFun
      DEFAULT_DOMAIN DEFAULT_RANGE [] = .ok constCal
    ∧ constCal.call [3] = .ok [7]
    ∧ constCal.inverse [7] [] = .ok [5]
    ∧ ¬ rat_close 5 3 :=
  ⟨by rfl, by rfl, constCal_inverse_seven, by norm_num [rat_close]⟩

/-- C1 (amended): the inverse guarantees forward-consistency only — any
`x` it returns satisfies `np.allclose(f(x), y)` (the final assert fails
fatally otherwise), so `c(c.inverse(c(x))) ≈ c(x)`; the stronger
round-trip `c.inverse(c(x)) ≈ x` holds only for injective calibrations. -/
theorem c1_inverse_forward_consistency (c : Calibration) (y roots x : List ℚ)
    (h : c.inverse y roots = .ok x) :
    ∃ fx, c.call x = .ok fx ∧ list_allclose fx y = true := by
  unfold Calibration.inverse at h
  split_ifs at h with hr
  cases hie : c.inv_expression with
  | none =>
    rw [hie] at h
    dsimp only at h
    cases hc : c.call roots with
    | error e =>
      rw [hc] at h
      simp at h
    | ok fx =>
      rw [hc] at h
      dsimp only at h
      split_ifs at h with hcl
      simp only [Except.ok.injEq] at h
      subst h
      exact ⟨fx, hc, hcl⟩
  | some s =>
    rw [hie] at h
    dsimp only at h
    cases he : eval_expression c.invFun c.params y "y" c.range c.domain with
    | error e =>
      rw [he] at h
      simp at h
    | ok xs =>
      rw [he] at h
      dsimp only at h
      cases hc : c.call xs with
      | error e =>
        rw [hc] at h
        simp at h
      | ok fx =>
        rw [hc] at h
        dsimp only at h
        split_ifs at h with hcl
        simp only [Except.ok.injEq] at h
        subst h
        exact ⟨fx, hc, hcl⟩

/-- C1 witness: the forward-consistency theorem applied to `constCal` at
`y = [7]`, whose inverse returns `[5]` with `f([5]) = [7]` close to
`[7]`. -/
theorem c1_inverse_forward_consistency_witness :
    ∃ fx, constCal.call [5] = .ok fx ∧ list_allclose fx [7] = true :=
  c1_inverse_forward_consistency constCal [7] [] [5] constCal_inverse_seven

end Becquerel
